import Mathlib

/-!
Shallow embedding of the RTMP sink element (`src/gstrtmpsink.c`, plugin
`rtmpsink`).  The mutable `GstRTMPSink` instance becomes an explicit state
record; the calls into librtmp (`RTMP_Alloc`, `RTMP_SetupURL`,
`RTMP_IsConnected`, `RTMP_Connect`/`RTMP_ConnectStream`, `RTMP_SetOpt`,
`RTMP_Write`) become an oracle record fixing the outcome each external call
would produce during one delivery.  `gst_rtmp_sink_render` becomes a pure
function from oracle, state and buffer to a result record carrying the flow
return, the successor state, the element messages posted
(disconnected / reconnected / bandwidth) and the payloads handed to
`RTMP_Write`, in order.
-/

namespace RtmpSink

/-- One GStreamer buffer as delivered to `gst_rtmp_sink_render`: the
`GST_BUFFER_TIMESTAMP` (a `guint64`, in ns) and the payload bytes
(`GST_BUFFER_DATA` / `GST_BUFFER_SIZE`). -/
structure Chunk where
  timestamp : Nat
  bytes : List Nat
deriving Repr, DecidableEq

/-- The fields of `GstRTMPSink` that `gstrtmpsink.c` reads or writes.
URIs are kept abstract as `Option String` (presence is all the control flow
inspects); the librtmp context pointer `rtmp` and the owned string
`rtmp_uri` are modelled by whether they are currently allocated. -/
structure SinkState where
  connection_status : Int
  sent_status : Int
  first : Bool
  have_write_error : Bool
  stream_meta_saved : Bool
  video_meta_saved : Bool
  audio_meta_saved : Bool
  stream_metadata : List Nat
  video_metadata : List Nat
  audio_metadata : List Nat
  header : Option (List Nat)
  try_now_connection : Bool
  send_error_count : Nat
  disconnection_notified : Int
  begin_time_disc : Nat
  end_time_disc : Nat
  reconnection_delay : Nat
  is_backup : Bool
  uri : Option String
  backup_uri : Option String
  rtmp : Bool
  rtmp_uri : Bool
deriving Repr, DecidableEq

/-- Outcomes of the librtmp calls made during one render call. -/
structure Oracle where
  alloc_ok : Bool
  setup_ok : Bool
  is_connected : Bool
  opt_ok : Bool
  connect_ok : Bool
  write_result : List Nat → Int

/-- `gst_element_post_message` payloads built in `gst_rtmp_sink_render`:
`gst_structure_new ("disconnected"/"reconnected"/"bandwidth", "timestamp", ...)`. -/
inductive Ev where
  | disconnected (ts : Nat)
  | reconnected (ts : Nat)
  | bandwidth (ts : Nat)
deriving Repr, DecidableEq

/-- `GstFlowReturn` restricted to the two values the render function uses. -/
inductive Flow where
  | ok
  | error
deriving Repr, DecidableEq

/-- Result of one `gst_rtmp_sink_render` call: flow return, successor state,
posted element messages, payloads passed to `RTMP_Write` in call order, plus
three observation flags marking which path the call took: whether
`RTMP_Connect`/`RTMP_ConnectStream` was invoked, whether that invocation
failed, and whether the call reached the post-connection block at
lines 438-479 (header caching, events, metadata replay). -/
structure RenderOut where
  ret : Flow
  st : SinkState
  events : List Ev
  writes : List (List Nat)
  connect_attempted : Bool
  connect_failed : Bool
  reconnect_done : Bool
deriving Repr, DecidableEq

/-- `2^64`, the modulus of `guint64` arithmetic. -/
def u64 : Nat := 18446744073709551616

/-- `guint64` subtraction `a - b` with wrap-around, as in
`sink->end_time_disc - sink->begin_time_disc` (line 378). -/
def sub64 (a b : Nat) : Nat := (a % u64 + (u64 - b % u64)) % u64

/-- `gst_rtmp_sink_init` (lines 190-212).  Fields the C initializer does not
touch are zero-initialized by GObject instance allocation. -/
def sinkInit : SinkState where
  connection_status := 0
  sent_status := 0
  first := false
  have_write_error := false
  stream_meta_saved := false
  video_meta_saved := false
  audio_meta_saved := false
  stream_metadata := []
  video_metadata := []
  audio_metadata := []
  header := none
  try_now_connection := true
  send_error_count := 0
  disconnection_notified := 1
  begin_time_disc := 0
  end_time_disc := 0
  reconnection_delay := 10000000000
  is_backup := false
  uri := none
  backup_uri := none
  rtmp := false
  rtmp_uri := false

/-- `gst_rtmp_sink_stop` (lines 280-300): drop the cached header, close and
free the RTMP context, free the URI string.  Always returns TRUE. -/
def sink_stop (s : SinkState) : SinkState :=
  { s with header := none, rtmp := false, rtmp_uri := false }

/-- `gst_rtmp_sink_start` (lines 214-278).  Returns the C function's gboolean
together with the updated state.  On the missing-URI early returns nothing has
been touched; on the alloc/SetupURL error path the context and URI string are
released; on success `first` and `have_write_error` are (re)set. -/
def sink_start (o : Oracle) (s : SinkState) : Bool × SinkState :=
  if !s.is_backup && (s.uri = none) then (false, s)
  else if s.is_backup && (s.backup_uri = none) then (false, s)
  else
    let s := { s with rtmp_uri := true }
    if !o.alloc_ok then (false, { s with rtmp := false, rtmp_uri := false })
    else
      let s := { s with rtmp := true }
      if !o.setup_ok then (false, { s with rtmp := false, rtmp_uri := false })
      else (true, { s with first := true, have_write_error := false })

/-- `gst_rtmp_sink_option` (lines 310-348): apply the flashver and timeout
options; on failure free the RTMP context and the URI string and return
FALSE. -/
def sink_option (o : Oracle) (s : SinkState) : Bool × SinkState :=
  if o.opt_ok then (true, s)
  else (false, { s with rtmp := false, rtmp_uri := false })

/-- `gst_rtmp_sink_event` (lines 723-737): FLUSH_STOP clears
`have_write_error`; every event returns TRUE. -/
def sink_event_flush_stop (s : SinkState) : SinkState :=
  { s with have_write_error := false }

/-- Metadata capture, `gst_rtmp_sink_render` lines 359-374: guarded by
`if (sink->connection_status)` — any non-zero status, connected (positive)
or errored (-1) — an else-if chain captures the first chunk whose leading
byte tags it as stream metadata (18), video (9) or audio (8) into the
corresponding not-yet-saved slot (`copy_metadata` always returns TRUE). -/
def captureMeta (s : SinkState) (buf : Chunk) : SinkState :=
  if s.connection_status ≠ 0 then
    if !s.stream_meta_saved && (buf.bytes.head? = some 18) then
      { s with stream_metadata := buf.bytes, stream_meta_saved := true }
    else if !s.video_meta_saved && (buf.bytes.head? = some 9) then
      { s with video_metadata := buf.bytes, video_meta_saved := true }
    else if !s.audio_meta_saved && (buf.bytes.head? = some 8) then
      { s with audio_metadata := buf.bytes, audio_meta_saved := true }
    else s
  else s

/-- Lines 376-377: while errored (`sent_status == -1 || connection_status
== -1`) stamp `end_time_disc` with the buffer timestamp. -/
def stampEnd (s : SinkState) (buf : Chunk) : SinkState :=
  if s.sent_status = -1 ∨ s.connection_status = -1 then
    { s with end_time_disc := buf.timestamp }
  else s

/-- Retry eligibility, line 378: elapsed disconnect time exceeds
`reconnection_delay` (guint64 arithmetic) or `try_now_connection` forces the
attempt. -/
def eligible (s : SinkState) : Bool :=
  decide (s.reconnection_delay < sub64 s.end_time_disc s.begin_time_disc)
    || s.try_now_connection

/-- Lines 380-399: when the previous cycle ended in error, tear down and
rebuild the RTMP object (stop, toggle the backup flag when a backup URI is
configured, start — its return value is ignored) and move
`begin_time_disc` up to `end_time_disc`. -/
def rebuild (o : Oracle) (s : SinkState) : SinkState :=
  if s.connection_status = -1 ∨ s.sent_status = -1 then
    let s1 := sink_stop s
    let s2 := if s1.backup_uri ≠ none then { s1 with is_backup := !s1.is_backup } else s1
    let s3 := (sink_start o s2).2
    { s3 with begin_time_disc := s3.end_time_disc }
  else s

/-- `RTMP_IsConnected (sink->rtmp)`, line 400 (false when the context is
gone). -/
def isConn (o : Oracle) (s : SinkState) : Bool :=
  s.rtmp && o.is_connected

/-- The `init_failed` label (lines 511-523): free the RTMP context; only when
the URI string is still owned, free it and raise `have_write_error`.
Returns `GST_FLOW_ERROR`. -/
def initFailed (s : SinkState) : RenderOut :=
  let s := { s with rtmp := false }
  if s.rtmp_uri then
    ⟨.error, { s with rtmp_uri := false, have_write_error := true }, [], [], false, false, false⟩
  else ⟨.error, s, [], [], false, false, false⟩

/-- Connect failure handling, lines 410-433: release the context and URI,
consume `try_now_connection`, mark the connection errored, zero the send
error counter; with no reconnection delay fall into `init_failed`, otherwise
restart the disconnect clock and post "disconnected" at most once
(gated by `disconnection_notified == 1`), returning `GST_FLOW_OK`. -/
def connectFailTail (s : SinkState) (buf : Chunk) : RenderOut :=
  let s := { s with rtmp := false, try_now_connection := false, rtmp_uri := false,
                    connection_status := -1, send_error_count := 0 }
  if s.reconnection_delay = 0 then
    { initFailed s with connect_attempted := true, connect_failed := true }
  else
    let s := { s with begin_time_disc := buf.timestamp }
    if s.disconnection_notified = 1 then
      ⟨.ok, { s with connection_status := -1, sent_status := 0, disconnection_notified := 0 },
        [.disconnected buf.timestamp], [], true, true, false⟩
    else ⟨.ok, s, [], [], true, true, false⟩

/-- Metadata replay, lines 457-467: `connection_status` is set to 1 and then
overwritten by the result of each `RTMP_Write` of a saved slot, stream
metadata first, then video, then audio; every saved slot is written —
a failed write does not stop the chain. -/
def replaySlots (o : Oracle) (s : SinkState) : SinkState × List (List Nat) :=
  let s := { s with connection_status := 1 }
  let p1 : SinkState × List (List Nat) :=
    if s.stream_meta_saved then
      ({ s with connection_status := o.write_result s.stream_metadata }, [s.stream_metadata])
    else (s, [])
  let p2 : SinkState × List (List Nat) :=
    if p1.1.video_meta_saved then
      ({ p1.1 with connection_status := o.write_result p1.1.video_metadata },
        p1.2 ++ [p1.1.video_metadata])
    else p1
  if p2.1.audio_meta_saved then
    ({ p2.1 with connection_status := o.write_result p2.1.audio_metadata },
      p2.2 ++ [p2.1.audio_metadata])
  else p2

/-- Lines 438-479, reached once the connection is (again) live: cache the
current buffer as the pending header; post "reconnected" when a disconnect
had been notified, else "bandwidth" when the last send failed and at least
two send errors accumulated (resetting the counter); replay the saved
metadata; build the header+buffer join (lines 471-476 — the joined buffer is
neither stored nor written: the function returns `GST_FLOW_OK` at line 479
before reaching the write at line 488, dropping it); clear `first`. -/
def afterConnect (o : Oracle) (s : SinkState) (buf : Chunk) : RenderOut :=
  let s := { s with header := some buf.bytes }
  let es : SinkState × List Ev :=
    if s.disconnection_notified = 0 then
      ({ s with disconnection_notified := 1 }, [.reconnected s.begin_time_disc])
    else if s.sent_status = -1 ∧ 2 ≤ s.send_error_count then
      ({ s with send_error_count := 0 }, [.bandwidth buf.timestamp])
    else (s, [])
  let rw := replaySlots o es.1
  ⟨.ok, { rw.1 with first := false }, es.2, rw.2, false, false, true⟩

/-- The `if (sink->first)` block, lines 375-480. -/
def firstPath (o : Oracle) (s : SinkState) (buf : Chunk) : RenderOut :=
  let s := stampEnd s buf
  if eligible s then
    let s := rebuild o s
    if isConn o s then afterConnect o s buf
    else
      let os := sink_option o s
      if !os.1 then initFailed os.2
      else if o.connect_ok then
        { afterConnect o os.2 buf with connect_attempted := true }
      else connectFailTail os.2 buf
  else ⟨.ok, s, [], [], false, false, false⟩

/-- Line 498-504: a send result of -1 flips the machine back into reconnect
mode — count the error, raise `first`, restart the disconnect clock, force
the next attempt. -/
def noteSendError (s : SinkState) (buf : Chunk) : SinkState :=
  if s.sent_status = -1 then
    { s with send_error_count := s.send_error_count + 1, first := true,
             begin_time_disc := buf.timestamp, try_now_connection := true }
  else s

/-- Steady-state delivery, lines 482-509: a raised `have_write_error` jumps
to `write_failed` (error, flag kept); with a positive `connection_status` the
buffer is written, a zero result being an immediate `GST_FLOW_ERROR`;
otherwise (and after a -1 result) the send-error bookkeeping runs and the
call returns `GST_FLOW_OK`. -/
def steadyPath (o : Oracle) (s : SinkState) (buf : Chunk) : RenderOut :=
  if s.have_write_error then
    ⟨.error, { s with have_write_error := true }, [], [], false, false, false⟩
  else if 0 < s.connection_status then
    let r := o.write_result buf.bytes
    let s := { s with sent_status := r }
    if r = 0 then ⟨.error, s, [], [buf.bytes], false, false, false⟩
    else ⟨.ok, noteSendError s buf, [], [buf.bytes], false, false, false⟩
  else ⟨.ok, noteSendError s buf, [], [], false, false, false⟩

/-- `gst_rtmp_sink_render` (lines 350-534). -/
def render (o : Oracle) (s : SinkState) (buf : Chunk) : RenderOut :=
  let s := captureMeta s buf
  if s.first then firstPath o s buf else steadyPath o s buf

/-- The state in force when the post-connection block (line 438) is entered:
metadata capture, disconnect-time stamping and the conditional teardown and
rebuild have all been applied. -/
def reconnectEntry (o : Oracle) (s : SinkState) (buf : Chunk) : SinkState :=
  rebuild o (stampEnd (captureMeta s buf) buf)

/-- Spec-side description of the replay payload sequence: the captured slots
in the fixed order stream header, then video, then audio, skipping
uncaptured slots. -/
def replayWrites (s : SinkState) : List (List Nat) :=
  (if s.stream_meta_saved then [s.stream_metadata] else []) ++
  (if s.video_meta_saved then [s.video_metadata] else []) ++
  (if s.audio_meta_saved then [s.audio_metadata] else [])

/-- Holds when two states agree on all six metadata-slot fields (the three
`*_meta_saved` flags and the three payloads). -/
def metaFrame (t s : SinkState) : Prop :=
  t.stream_meta_saved = s.stream_meta_saved ∧ t.video_meta_saved = s.video_meta_saved ∧
  t.audio_meta_saved = s.audio_meta_saved ∧ t.stream_metadata = s.stream_metadata ∧
  t.video_metadata = s.video_metadata ∧ t.audio_metadata = s.audio_metadata

/-! ### Concrete fixtures used by witness and counterexample theorems -/

/-- Oracle: connection establishable, every write succeeds. -/
def oConnOk : Oracle := ⟨true, true, false, true, true, fun _ => 1⟩

/-- Oracle: `RTMP_Connect`/`RTMP_ConnectStream` fail. -/
def oConnFail : Oracle := ⟨true, true, false, true, false, fun _ => 1⟩

/-- Oracle: every `RTMP_Write` reports the -1 send error. -/
def oWriteNeg : Oracle := ⟨true, true, false, true, true, fun _ => -1⟩

/-- Oracle: every `RTMP_Write` returns 7 bytes. -/
def oWrite7 : Oracle := ⟨true, true, false, true, true, fun _ => 7⟩

/-- A freshly started sink (after `gst_rtmp_sink_start`) with a 5 ns
reconnection delay. -/
def sReady : SinkState :=
  { sinkInit with first := true, uri := some "rtmp://main/live", rtmp := true,
                  rtmp_uri := true, reconnection_delay := 5 }

/-- A connected sink in steady forwarding state. -/
def sSteady : SinkState :=
  { sReady with first := false, connection_status := 1 }

/-- A sink waiting out the retry window: in reconnect mode with the forcing
flag consumed and the window not yet elapsed. -/
def sWaiting : SinkState :=
  { sReady with try_now_connection := false }

/-- A sink whose disconnect has been notified (mid-episode). -/
def sNotified : SinkState :=
  { sReady with disconnection_notified := 0 }

/-- A recovering sink with two accumulated send errors. -/
def sTwoErrs : SinkState :=
  { sSteady with first := true, sent_status := -1, send_error_count := 2 }

/-- A starting sink with all three metadata slots captured. -/
def sAllMeta : SinkState :=
  { sReady with stream_meta_saved := true, stream_metadata := [18, 1],
                video_meta_saved := true, video_metadata := [9, 2],
                audio_meta_saved := true, audio_metadata := [8, 3] }

/-- A faulted sink that is in reconnect mode with a closed retry window. -/
def sFaulted : SinkState :=
  { sReady with have_write_error := true, try_now_connection := false }

/-- A faulted sink in steady mode. -/
def sSteadyFault : SinkState :=
  { sSteady with have_write_error := true }

/-- A sink in the errored connection state (`connection_status = -1`) with
no slot captured yet, not in reconnect mode. -/
def sErrConn : SinkState :=
  { sSteady with connection_status := -1 }

/-- A steady sink with one accumulated send error. -/
def sCount1 : SinkState :=
  { sSteady with send_error_count := 1 }

/-- A steady connected sink additionally holding captured metadata and a
pending header. -/
def sMetaFull : SinkState :=
  { sAllMeta with first := false, connection_status := 1, header := some [1, 2] }

/-! ### Frame lemmas: fields untouched by the helper functions -/

@[simp] lemma captureMeta_first (s : SinkState) (buf : Chunk) :
    (captureMeta s buf).first = s.first := by
  unfold captureMeta; split_ifs <;> rfl

@[simp] lemma captureMeta_delay (s : SinkState) (buf : Chunk) :
    (captureMeta s buf).reconnection_delay = s.reconnection_delay := by
  unfold captureMeta; split_ifs <;> rfl

@[simp] lemma captureMeta_notified (s : SinkState) (buf : Chunk) :
    (captureMeta s buf).disconnection_notified = s.disconnection_notified := by
  unfold captureMeta; split_ifs <;> rfl

@[simp] lemma captureMeta_sent (s : SinkState) (buf : Chunk) :
    (captureMeta s buf).sent_status = s.sent_status := by
  unfold captureMeta; split_ifs <;> rfl

@[simp] lemma captureMeta_errcount (s : SinkState) (buf : Chunk) :
    (captureMeta s buf).send_error_count = s.send_error_count := by
  unfold captureMeta; split_ifs <;> rfl

@[simp] lemma captureMeta_trynow (s : SinkState) (buf : Chunk) :
    (captureMeta s buf).try_now_connection = s.try_now_connection := by
  unfold captureMeta; split_ifs <;> rfl

@[simp] lemma captureMeta_hwe (s : SinkState) (buf : Chunk) :
    (captureMeta s buf).have_write_error = s.have_write_error := by
  unfold captureMeta; split_ifs <;> rfl

@[simp] lemma captureMeta_conn (s : SinkState) (buf : Chunk) :
    (captureMeta s buf).connection_status = s.connection_status := by
  unfold captureMeta; split_ifs <;> rfl

@[simp] lemma captureMeta_header (s : SinkState) (buf : Chunk) :
    (captureMeta s buf).header = s.header := by
  unfold captureMeta; split_ifs <;> rfl

@[simp] lemma stampEnd_first (s : SinkState) (buf : Chunk) :
    (stampEnd s buf).first = s.first := by
  unfold stampEnd; split_ifs <;> rfl

@[simp] lemma stampEnd_delay (s : SinkState) (buf : Chunk) :
    (stampEnd s buf).reconnection_delay = s.reconnection_delay := by
  unfold stampEnd; split_ifs <;> rfl

@[simp] lemma stampEnd_notified (s : SinkState) (buf : Chunk) :
    (stampEnd s buf).disconnection_notified = s.disconnection_notified := by
  unfold stampEnd; split_ifs <;> rfl

@[simp] lemma stampEnd_sent (s : SinkState) (buf : Chunk) :
    (stampEnd s buf).sent_status = s.sent_status := by
  unfold stampEnd; split_ifs <;> rfl

@[simp] lemma stampEnd_errcount (s : SinkState) (buf : Chunk) :
    (stampEnd s buf).send_error_count = s.send_error_count := by
  unfold stampEnd; split_ifs <;> rfl

@[simp] lemma stampEnd_trynow (s : SinkState) (buf : Chunk) :
    (stampEnd s buf).try_now_connection = s.try_now_connection := by
  unfold stampEnd; split_ifs <;> rfl

@[simp] lemma stampEnd_smsaved (s : SinkState) (buf : Chunk) :
    (stampEnd s buf).stream_meta_saved = s.stream_meta_saved := by
  unfold stampEnd; split_ifs <;> rfl

@[simp] lemma stampEnd_vmsaved (s : SinkState) (buf : Chunk) :
    (stampEnd s buf).video_meta_saved = s.video_meta_saved := by
  unfold stampEnd; split_ifs <;> rfl

@[simp] lemma stampEnd_amsaved (s : SinkState) (buf : Chunk) :
    (stampEnd s buf).audio_meta_saved = s.audio_meta_saved := by
  unfold stampEnd; split_ifs <;> rfl

@[simp] lemma stampEnd_smdata (s : SinkState) (buf : Chunk) :
    (stampEnd s buf).stream_metadata = s.stream_metadata := by
  unfold stampEnd; split_ifs <;> rfl

@[simp] lemma stampEnd_vmdata (s : SinkState) (buf : Chunk) :
    (stampEnd s buf).video_metadata = s.video_metadata := by
  unfold stampEnd; split_ifs <;> rfl

@[simp] lemma stampEnd_amdata (s : SinkState) (buf : Chunk) :
    (stampEnd s buf).audio_metadata = s.audio_metadata := by
  unfold stampEnd; split_ifs <;> rfl

@[simp] lemma rebuild_delay (o : Oracle) (s : SinkState) :
    (rebuild o s).reconnection_delay = s.reconnection_delay := by
  simp only [rebuild, sink_start, sink_stop]; split_ifs <;> rfl

@[simp] lemma rebuild_notified (o : Oracle) (s : SinkState) :
    (rebuild o s).disconnection_notified = s.disconnection_notified := by
  simp only [rebuild, sink_start, sink_stop]; split_ifs <;> rfl

@[simp] lemma rebuild_sent (o : Oracle) (s : SinkState) :
    (rebuild o s).sent_status = s.sent_status := by
  simp only [rebuild, sink_start, sink_stop]; split_ifs <;> rfl

@[simp] lemma rebuild_errcount (o : Oracle) (s : SinkState) :
    (rebuild o s).send_error_count = s.send_error_count := by
  simp only [rebuild, sink_start, sink_stop]; split_ifs <;> rfl

@[simp] lemma rebuild_trynow (o : Oracle) (s : SinkState) :
    (rebuild o s).try_now_connection = s.try_now_connection := by
  simp only [rebuild, sink_start, sink_stop]; split_ifs <;> rfl

@[simp] lemma rebuild_smsaved (o : Oracle) (s : SinkState) :
    (rebuild o s).stream_meta_saved = s.stream_meta_saved := by
  simp only [rebuild, sink_start, sink_stop]; split_ifs <;> rfl

@[simp] lemma rebuild_vmsaved (o : Oracle) (s : SinkState) :
    (rebuild o s).video_meta_saved = s.video_meta_saved := by
  simp only [rebuild, sink_start, sink_stop]; split_ifs <;> rfl

@[simp] lemma rebuild_amsaved (o : Oracle) (s : SinkState) :
    (rebuild o s).audio_meta_saved = s.audio_meta_saved := by
  simp only [rebuild, sink_start, sink_stop]; split_ifs <;> rfl

@[simp] lemma rebuild_smdata (o : Oracle) (s : SinkState) :
    (rebuild o s).stream_metadata = s.stream_metadata := by
  simp only [rebuild, sink_start, sink_stop]; split_ifs <;> rfl

@[simp] lemma rebuild_vmdata (o : Oracle) (s : SinkState) :
    (rebuild o s).video_metadata = s.video_metadata := by
  simp only [rebuild, sink_start, sink_stop]; split_ifs <;> rfl

@[simp] lemma rebuild_amdata (o : Oracle) (s : SinkState) :
    (rebuild o s).audio_metadata = s.audio_metadata := by
  simp only [rebuild, sink_start, sink_stop]; split_ifs <;> rfl

/-! ### Observation lemmas for the individual paths -/

lemma replaySlots_writes (o : Oracle) (s : SinkState) :
    (replaySlots o s).2 = replayWrites s := by
  simp only [replaySlots, replayWrites]; split_ifs <;> simp

@[simp] lemma replaySlots_header (o : Oracle) (s : SinkState) :
    (replaySlots o s).1.header = s.header := by
  simp only [replaySlots]; split_ifs <;> rfl

@[simp] lemma replaySlots_trynow (o : Oracle) (s : SinkState) :
    (replaySlots o s).1.try_now_connection = s.try_now_connection := by
  simp only [replaySlots]; split_ifs <;> rfl

@[simp] lemma replaySlots_errcount (o : Oracle) (s : SinkState) :
    (replaySlots o s).1.send_error_count = s.send_error_count := by
  simp only [replaySlots]; split_ifs <;> rfl

@[simp] lemma replaySlots_notified (o : Oracle) (s : SinkState) :
    (replaySlots o s).1.disconnection_notified = s.disconnection_notified := by
  simp only [replaySlots]; split_ifs <;> rfl

@[simp] lemma replaySlots_hwe (o : Oracle) (s : SinkState) :
    (replaySlots o s).1.have_write_error = s.have_write_error := by
  simp only [replaySlots]; split_ifs <;> rfl

@[simp] lemma replaySlots_smsaved (o : Oracle) (s : SinkState) :
    (replaySlots o s).1.stream_meta_saved = s.stream_meta_saved := by
  simp only [replaySlots]; split_ifs <;> rfl

@[simp] lemma replaySlots_vmsaved (o : Oracle) (s : SinkState) :
    (replaySlots o s).1.video_meta_saved = s.video_meta_saved := by
  simp only [replaySlots]; split_ifs <;> rfl

@[simp] lemma replaySlots_amsaved (o : Oracle) (s : SinkState) :
    (replaySlots o s).1.audio_meta_saved = s.audio_meta_saved := by
  simp only [replaySlots]; split_ifs <;> rfl

@[simp] lemma replaySlots_smdata (o : Oracle) (s : SinkState) :
    (replaySlots o s).1.stream_metadata = s.stream_metadata := by
  simp only [replaySlots]; split_ifs <;> rfl

@[simp] lemma replaySlots_vmdata (o : Oracle) (s : SinkState) :
    (replaySlots o s).1.video_metadata = s.video_metadata := by
  simp only [replaySlots]; split_ifs <;> rfl

@[simp] lemma replaySlots_amdata (o : Oracle) (s : SinkState) :
    (replaySlots o s).1.audio_metadata = s.audio_metadata := by
  simp only [replaySlots]; split_ifs <;> rfl

lemma afterConnect_events (o : Oracle) (s : SinkState) (buf : Chunk) :
    (afterConnect o s buf).events =
      (if s.disconnection_notified = 0 then [Ev.reconnected s.begin_time_disc]
       else if s.sent_status = -1 ∧ 2 ≤ s.send_error_count then [Ev.bandwidth buf.timestamp]
       else []) := by
  simp only [afterConnect]; split_ifs <;> rfl

lemma afterConnect_flags (o : Oracle) (s : SinkState) (buf : Chunk) :
    (afterConnect o s buf).ret = Flow.ok ∧
    (afterConnect o s buf).connect_attempted = false ∧
    (afterConnect o s buf).connect_failed = false ∧
    (afterConnect o s buf).reconnect_done = true := by
  simp [afterConnect]

lemma afterConnect_writes (o : Oracle) (s : SinkState) (buf : Chunk) :
    (afterConnect o s buf).writes = replayWrites s := by
  simp only [afterConnect]
  split_ifs <;> simp [replaySlots_writes, replayWrites]

lemma afterConnect_header (o : Oracle) (s : SinkState) (buf : Chunk) :
    (afterConnect o s buf).st.header = some buf.bytes := by
  simp only [afterConnect]; split_ifs <;> simp

lemma afterConnect_first (o : Oracle) (s : SinkState) (buf : Chunk) :
    (afterConnect o s buf).st.first = false := by
  simp only [afterConnect]

lemma afterConnect_trynow (o : Oracle) (s : SinkState) (buf : Chunk) :
    (afterConnect o s buf).st.try_now_connection = s.try_now_connection := by
  simp only [afterConnect]; split_ifs <;> simp

lemma afterConnect_errcount (o : Oracle) (s : SinkState) (buf : Chunk) :
    (afterConnect o s buf).st.send_error_count =
      (if s.disconnection_notified ≠ 0 ∧ s.sent_status = -1 ∧ 2 ≤ s.send_error_count then 0
       else s.send_error_count) := by
  simp only [afterConnect]; split_ifs <;> simp_all

lemma afterConnect_notified (o : Oracle) (s : SinkState) (buf : Chunk) :
    (afterConnect o s buf).st.disconnection_notified =
      (if s.disconnection_notified = 0 then 1 else s.disconnection_notified) := by
  simp only [afterConnect]; split_ifs <;> simp_all

lemma initFailed_obs (s : SinkState) :
    (initFailed s).ret = Flow.error ∧ (initFailed s).events = [] ∧
    (initFailed s).writes = [] ∧ (initFailed s).connect_attempted = false ∧
    (initFailed s).connect_failed = false ∧ (initFailed s).reconnect_done = false := by
  simp only [initFailed]; split_ifs <;> simp

lemma connectFailTail_ret (s : SinkState) (buf : Chunk) :
    (connectFailTail s buf).ret = (if s.reconnection_delay = 0 then Flow.error else Flow.ok) := by
  simp only [connectFailTail, initFailed]; split_ifs <;> rfl

lemma connectFailTail_writes (s : SinkState) (buf : Chunk) :
    (connectFailTail s buf).writes = [] := by
  simp only [connectFailTail, initFailed]; split_ifs <;> rfl

lemma connectFailTail_events (s : SinkState) (buf : Chunk) :
    (connectFailTail s buf).events =
      (if s.reconnection_delay = 0 then []
       else if s.disconnection_notified = 1 then [Ev.disconnected buf.timestamp] else []) := by
  simp only [connectFailTail, initFailed]; split_ifs <;> rfl

lemma connectFailTail_flags (s : SinkState) (buf : Chunk) :
    (connectFailTail s buf).connect_attempted = true ∧
    (connectFailTail s buf).connect_failed = true ∧
    (connectFailTail s buf).reconnect_done = false := by
  simp only [connectFailTail, initFailed]; split_ifs <;> simp

lemma connectFailTail_st (s : SinkState) (buf : Chunk) :
    (connectFailTail s buf).st.send_error_count = 0 ∧
    (connectFailTail s buf).st.try_now_connection = false ∧
    (connectFailTail s buf).st.connection_status = -1 ∧
    (connectFailTail s buf).st.disconnection_notified =
      (if s.reconnection_delay ≠ 0 ∧ s.disconnection_notified = 1 then 0
       else s.disconnection_notified) := by
  simp only [connectFailTail, initFailed]; split_ifs <;> simp_all

lemma steadyPath_obs (o : Oracle) (s : SinkState) (buf : Chunk) :
    (steadyPath o s buf).events = [] ∧
    (steadyPath o s buf).connect_attempted = false ∧
    (steadyPath o s buf).connect_failed = false ∧
    (steadyPath o s buf).reconnect_done = false := by
  simp only [steadyPath, noteSendError]; split_ifs <;> simp

/-! ### Decomposition of a render call into its three possible path shapes -/

lemma render_first (o : Oracle) (s : SinkState) (buf : Chunk)
    (h : (captureMeta s buf).first = true) :
    render o s buf = firstPath o (captureMeta s buf) buf := by
  simp only [render]; rw [if_pos h]

lemma render_steady (o : Oracle) (s : SinkState) (buf : Chunk)
    (h : (captureMeta s buf).first = false) :
    render o s buf = steadyPath o (captureMeta s buf) buf := by
  simp only [render]; rw [if_neg (by rw [h]; exact Bool.false_ne_true)]

lemma render_dropped (o : Oracle) (s : SinkState) (buf : Chunk)
    (hf : s.first = true) (he : eligible (stampEnd (captureMeta s buf) buf) = false) :
    render o s buf = ⟨.ok, stampEnd (captureMeta s buf) buf, [], [], false, false, false⟩ := by
  rw [render_first o s buf (by simp [hf])]
  simp only [firstPath]
  rw [if_neg (by simp [he])]

lemma render_path (o : Oracle) (s : SinkState) (buf : Chunk) :
    (∃ b, render o s buf =
      { afterConnect o (reconnectEntry o s buf) buf with connect_attempted := b })
    ∨ render o s buf = connectFailTail (reconnectEntry o s buf) buf
    ∨ ((render o s buf).events = [] ∧ (render o s buf).reconnect_done = false ∧
       (render o s buf).connect_failed = false) := by
  by_cases hf : (captureMeta s buf).first = true
  · rw [render_first o s buf hf]
    simp only [firstPath, reconnectEntry]
    by_cases he : eligible (stampEnd (captureMeta s buf) buf) = true
    · rw [if_pos he]
      by_cases hc : isConn o (rebuild o (stampEnd (captureMeta s buf) buf)) = true
      · rw [if_pos hc]; left; exact ⟨_, rfl⟩
      · rw [if_neg hc]
        by_cases ho : o.opt_ok = true
        · simp only [sink_option, if_pos ho, Bool.not_true, Bool.false_eq_true, if_false]
          by_cases hk : o.connect_ok = true
          · rw [if_pos hk]; left; exact ⟨true, rfl⟩
          · rw [if_neg hk]; right; left; rfl
        · simp only [sink_option, if_neg ho, Bool.not_false, if_true]
          right; right
          have h1 := initFailed_obs
            { rebuild o (stampEnd (captureMeta s buf) buf) with rtmp := false, rtmp_uri := false }
          exact ⟨h1.2.1, h1.2.2.2.2.2, h1.2.2.2.2.1⟩
    · rw [if_neg he]; right; right; exact ⟨rfl, rfl, rfl⟩
  · rw [render_steady o s buf (by simpa using hf)]
    have h1 := steadyPath_obs o (captureMeta s buf) buf
    right; right; exact ⟨h1.1, h1.2.2.2, h1.2.2.1⟩

/-! ### Field tracking through the pre-connection phase -/

@[simp] lemma reconnectEntry_delay (o : Oracle) (s : SinkState) (buf : Chunk) :
    (reconnectEntry o s buf).reconnection_delay = s.reconnection_delay := by
  simp [reconnectEntry]

@[simp] lemma reconnectEntry_notified (o : Oracle) (s : SinkState) (buf : Chunk) :
    (reconnectEntry o s buf).disconnection_notified = s.disconnection_notified := by
  simp [reconnectEntry]

@[simp] lemma reconnectEntry_sent (o : Oracle) (s : SinkState) (buf : Chunk) :
    (reconnectEntry o s buf).sent_status = s.sent_status := by
  simp [reconnectEntry]

@[simp] lemma reconnectEntry_errcount (o : Oracle) (s : SinkState) (buf : Chunk) :
    (reconnectEntry o s buf).send_error_count = s.send_error_count := by
  simp [reconnectEntry]

@[simp] lemma reconnectEntry_trynow (o : Oracle) (s : SinkState) (buf : Chunk) :
    (reconnectEntry o s buf).try_now_connection = s.try_now_connection := by
  simp [reconnectEntry]

lemma reconnectEntry_replay (o : Oracle) (s : SinkState) (buf : Chunk) :
    replayWrites (reconnectEntry o s buf) = replayWrites (captureMeta s buf) := by
  simp [reconnectEntry, replayWrites]

/-! ### Steady-state write behaviour -/

lemma steadyPath_write (o : Oracle) (s : SinkState) (buf : Chunk)
    (h1 : s.have_write_error = false) (h2 : 0 < s.connection_status) :
    (steadyPath o s buf).writes = [buf.bytes] ∧
    (steadyPath o s buf).st.header = s.header ∧
    ((steadyPath o s buf).ret = Flow.error ↔ o.write_result buf.bytes = 0) ∧
    (o.write_result buf.bytes ≠ -1 →
      (steadyPath o s buf).st.send_error_count = s.send_error_count) ∧
    (o.write_result buf.bytes = -1 →
      (steadyPath o s buf).st.send_error_count = s.send_error_count + 1 ∧
      (steadyPath o s buf).st.first = true ∧
      (steadyPath o s buf).st.try_now_connection = true) := by
  simp only [steadyPath, noteSendError, h1, Bool.false_eq_true, if_false, h2, if_pos]
  split_ifs <;> simp_all

lemma steadyPath_noconn (o : Oracle) (s : SinkState) (buf : Chunk)
    (h1 : s.have_write_error = false) (h2 : ¬0 < s.connection_status) :
    (steadyPath o s buf).writes = [] ∧ (steadyPath o s buf).ret = Flow.ok ∧
    (steadyPath o s buf).st.header = s.header := by
  simp only [steadyPath, noteSendError, h1, Bool.false_eq_true, if_false, h2]
  split_ifs <;> simp_all

lemma steadyPath_fault (o : Oracle) (s : SinkState) (buf : Chunk)
    (h1 : s.have_write_error = true) :
    steadyPath o s buf =
      ⟨.error, { s with have_write_error := true }, [], [], false, false, false⟩ := by
  simp only [steadyPath, h1, if_pos]

/-! ### The metadata slots are only written by the capture phase -/

lemma metaFrame_trans {a b c : SinkState} (h1 : metaFrame a b) (h2 : metaFrame b c) :
    metaFrame a c := by
  obtain ⟨x1, x2, x3, x4, x5, x6⟩ := h1
  obtain ⟨y1, y2, y3, y4, y5, y6⟩ := h2
  exact ⟨x1.trans y1, x2.trans y2, x3.trans y3, x4.trans y4, x5.trans y5, x6.trans y6⟩

lemma steadyPath_meta (o : Oracle) (s : SinkState) (buf : Chunk) :
    metaFrame (steadyPath o s buf).st s := by
  simp only [metaFrame, steadyPath, noteSendError]
  split_ifs <;> exact ⟨rfl, rfl, rfl, rfl, rfl, rfl⟩

lemma afterConnect_meta (o : Oracle) (s : SinkState) (buf : Chunk) :
    metaFrame (afterConnect o s buf).st s := by
  simp only [metaFrame, afterConnect]
  split_ifs <;> simp

lemma connectFailTail_meta (s : SinkState) (buf : Chunk) :
    metaFrame (connectFailTail s buf).st s := by
  simp only [metaFrame, connectFailTail, initFailed]
  split_ifs <;> exact ⟨rfl, rfl, rfl, rfl, rfl, rfl⟩

lemma initFailed_meta (s : SinkState) :
    metaFrame (initFailed s).st s := by
  simp only [metaFrame, initFailed]
  split_ifs <;> exact ⟨rfl, rfl, rfl, rfl, rfl, rfl⟩

lemma stampEnd_metaFrame (s : SinkState) (buf : Chunk) :
    metaFrame (stampEnd s buf) s := by
  simp only [metaFrame]; simp

lemma rebuild_metaFrame (o : Oracle) (s : SinkState) :
    metaFrame (rebuild o s) s := by
  simp only [metaFrame]; simp

lemma reconnectEntry_metaFrame (o : Oracle) (s : SinkState) (buf : Chunk) :
    metaFrame (reconnectEntry o s buf) (captureMeta s buf) :=
  metaFrame_trans (rebuild_metaFrame o _) (stampEnd_metaFrame _ buf)

/-- After a whole render call, the metadata slots hold exactly what the
capture phase (lines 359-374) left there: no later phase touches them. -/
lemma render_meta (o : Oracle) (s : SinkState) (buf : Chunk) :
    metaFrame (render o s buf).st (captureMeta s buf) := by
  by_cases hf : (captureMeta s buf).first = true
  · rw [render_first o s buf hf]
    simp only [firstPath]
    by_cases he : eligible (stampEnd (captureMeta s buf) buf) = true
    · rw [if_pos he]
      by_cases hc : isConn o (rebuild o (stampEnd (captureMeta s buf) buf)) = true
      · rw [if_pos hc]
        exact metaFrame_trans (afterConnect_meta o _ buf)
          (reconnectEntry_metaFrame o s buf)
      · rw [if_neg hc]
        by_cases ho : o.opt_ok = true
        · simp only [sink_option, if_pos ho, Bool.not_true, Bool.false_eq_true, if_false]
          by_cases hk : o.connect_ok = true
          · rw [if_pos hk]
            exact metaFrame_trans (afterConnect_meta o _ buf)
              (reconnectEntry_metaFrame o s buf)
          · rw [if_neg hk]
            exact metaFrame_trans (connectFailTail_meta _ buf)
              (reconnectEntry_metaFrame o s buf)
        · simp only [sink_option, if_neg ho, Bool.not_false, if_true]
          refine metaFrame_trans (initFailed_meta _) ?_
          refine metaFrame_trans ?_ (reconnectEntry_metaFrame o s buf)
          exact ⟨rfl, rfl, rfl, rfl, rfl, rfl⟩
    · rw [if_neg (by simp [he])]
      exact stampEnd_metaFrame _ buf
  · rw [render_steady o s buf (by simpa using hf)]
    exact steadyPath_meta o _ buf

lemma bool_contra {b : Bool} {p : Prop} (h : b = false → ¬p) (hp : p) : b = true := by
  cases b
  · exact absurd hp (h rfl)
  · rfl

/-- The capture phase characterized slot by slot. -/
lemma captureMeta_spec (s : SinkState) (buf : Chunk) :
    (captureMeta s buf).stream_meta_saved =
      (s.stream_meta_saved ||
        (decide (s.connection_status ≠ 0) && decide (buf.bytes.head? = some 18))) ∧
    (captureMeta s buf).video_meta_saved =
      (s.video_meta_saved ||
        (decide (s.connection_status ≠ 0) && decide (buf.bytes.head? = some 9))) ∧
    (captureMeta s buf).audio_meta_saved =
      (s.audio_meta_saved ||
        (decide (s.connection_status ≠ 0) && decide (buf.bytes.head? = some 8))) ∧
    (s.stream_meta_saved = false → (captureMeta s buf).stream_meta_saved = true →
      (captureMeta s buf).stream_metadata = buf.bytes) ∧
    (s.video_meta_saved = false → (captureMeta s buf).video_meta_saved = true →
      (captureMeta s buf).video_metadata = buf.bytes) ∧
    (s.audio_meta_saved = false → (captureMeta s buf).audio_meta_saved = true →
      (captureMeta s buf).audio_metadata = buf.bytes) := by
  simp only [captureMeta]
  split_ifs <;> simp_all <;>
    exact ⟨fun hh => bool_contra (by assumption) hh, fun hh => bool_contra (by assumption) hh,
      fun hh => bool_contra (by assumption) hh⟩

/-! ### Claim theorems -/

/-- Claim C1: for every chunk delivery that triggers a connect attempt which
fails (`RTMP_Connect` or `RTMP_ConnectStream` returns failure), the render
call returns a fatal error if and only if `reconnection_delay` is 0; whenever
the delay is positive it returns `GST_FLOW_OK` with the chunk dropped and no
write performed. -/
theorem claim_C1_connect_failure_fatal_iff_zero_delay
    (o : Oracle) (s : SinkState) (buf : Chunk)
    (h : (render o s buf).connect_failed = true) :
    ((render o s buf).ret = Flow.error ↔ s.reconnection_delay = 0) ∧
    (s.reconnection_delay ≠ 0 →
      (render o s buf).ret = Flow.ok ∧ (render o s buf).writes = []) := by
  rcases render_path o s buf with ⟨b, hb⟩ | hb | ⟨_, _, h3⟩
  · rw [hb] at h
    have hx := (afterConnect_flags o (reconnectEntry o s buf) buf).2.2.1
    simp [hx] at h
  · rw [hb]
    rw [connectFailTail_ret, connectFailTail_writes, reconnectEntry_delay]
    by_cases hd : s.reconnection_delay = 0 <;> simp [hd]
  · rw [h3] at h; cases h

/-- Claim C1 witness: a failing connect on a fresh sink with delay 5. -/
theorem claim_C1_witness :
    ((render oConnFail sReady ⟨100, [9, 1]⟩).ret = Flow.error ↔
       sReady.reconnection_delay = 0) ∧
    (sReady.reconnection_delay ≠ 0 →
      (render oConnFail sReady ⟨100, [9, 1]⟩).ret = Flow.ok ∧
      (render oConnFail sReady ⟨100, [9, 1]⟩).writes = []) :=
  claim_C1_connect_failure_fatal_iff_zero_delay oConnFail sReady ⟨100, [9, 1]⟩ (by decide)

/-- Claim C2 counterexample: after the successful reconnect completed by the
chunk `[9,1,2]`, the next delivery writes only its own raw bytes `[7,7]` —
not the concatenation with the cached PendingHeader — and the PendingHeader
is still cached afterwards, contradicting the claimed joined write and
subsequent clearing. -/
theorem claim_C2_counterexample :
    (render oConnOk sReady ⟨100, [9, 1, 2]⟩).reconnect_done = true ∧
    (render oConnOk sReady ⟨100, [9, 1, 2]⟩).st.header = some [9, 1, 2] ∧
    (render oConnOk (render oConnOk sReady ⟨100, [9, 1, 2]⟩).st ⟨101, [7, 7]⟩).writes
      = [[7, 7]] ∧
    [[7, 7]] ≠ [([9, 1, 2] ++ [7, 7] : List Nat)] ∧
    (render oConnOk (render oConnOk sReady ⟨100, [9, 1, 2]⟩).st ⟨101, [7, 7]⟩).st.header
      = some [9, 1, 2] := by decide

/-- Claim C2 amended: on a successful reconnect the completing chunk is
cached as PendingHeader and that delivery writes only the replayed metadata
slots (the chunk itself is not written); a subsequent steady-state delivery
writes its own chunk alone — never joined with the PendingHeader — and
leaves the PendingHeader cached. -/
theorem claim_C2_amended (o : Oracle) (s : SinkState) (buf : Chunk) :
    ((render o s buf).reconnect_done = true →
      (render o s buf).st.header = some buf.bytes ∧
      (render o s buf).st.first = false ∧
      (render o s buf).writes = replayWrites (captureMeta s buf)) ∧
    (s.first = false → s.have_write_error = false → 0 < s.connection_status →
      (render o s buf).writes = [buf.bytes] ∧
      (render o s buf).st.header = s.header) := by
  constructor
  · intro h
    rcases render_path o s buf with ⟨b, hb⟩ | hb | ⟨_, h3, _⟩
    · rw [hb]
      have hh := afterConnect_header o (reconnectEntry o s buf) buf
      have hf := afterConnect_first o (reconnectEntry o s buf) buf
      have hw := afterConnect_writes o (reconnectEntry o s buf) buf
      have hr := reconnectEntry_replay o s buf
      exact ⟨hh, hf, by rw [hw, hr]⟩
    · rw [hb] at h
      have hx := (connectFailTail_flags (reconnectEntry o s buf) buf).2.2
      simp [hx] at h
    · rw [h3] at h; cases h
  · intro hf h1 h2
    rw [render_steady o s buf (by simp [hf])]
    have h := steadyPath_write o (captureMeta s buf) buf (by simp [h1]) (by simp [h2])
    exact ⟨h.1, by rw [h.2.1, captureMeta_header]⟩

/-- Claim C2 witness: the reconnect delivery caches `[9,1,2]` and a steady
delivery writes `[7,7]` raw with the header untouched. -/
theorem claim_C2_witness :
    ((render oConnOk sReady ⟨100, [9, 1, 2]⟩).st.header = some [9, 1, 2] ∧
     (render oConnOk sReady ⟨100, [9, 1, 2]⟩).st.first = false ∧
     (render oConnOk sReady ⟨100, [9, 1, 2]⟩).writes =
       replayWrites (captureMeta sReady ⟨100, [9, 1, 2]⟩)) ∧
    ((render oConnOk sSteady ⟨100, [7, 7]⟩).writes = [[7, 7]] ∧
     (render oConnOk sSteady ⟨100, [7, 7]⟩).st.header = sSteady.header) := by
  refine ⟨(claim_C2_amended oConnOk sReady ⟨100, [9, 1, 2]⟩).1 (by decide), ?_⟩
  exact (claim_C2_amended oConnOk sSteady ⟨100, [7, 7]⟩).2 rfl rfl (by decide)

/-- Claim C3 counterexample: with all three slots captured and every
`RTMP_Write` failing with -1, the replay still writes all three payloads —
the failure of the first replay write does not abort the remaining writes —
and the delivery reports `GST_FLOW_OK`, not a write error. -/
theorem claim_C3_counterexample :
    oWriteNeg.write_result [18, 1] = -1 ∧
    (render oWriteNeg sAllMeta ⟨100, [7]⟩).writes = [[18, 1], [9, 2], [8, 3]] ∧
    (render oWriteNeg sAllMeta ⟨100, [7]⟩).ret = Flow.ok := by
  exact ⟨rfl, by decide, by decide⟩

/-- Claim C3 amended: on every successful reconnect the captured slots are
replayed in the fixed order stream header, then video, then audio, skipping
uncaptured slots; the sequence of replay writes does not depend on the write
results (no write aborts the remainder) and the delivery returns
`GST_FLOW_OK` regardless of replay failures. -/
theorem claim_C3_amended (o : Oracle) (s : SinkState) (buf : Chunk)
    (h : (render o s buf).reconnect_done = true) :
    (render o s buf).writes = replayWrites (captureMeta s buf) ∧
    (render o s buf).ret = Flow.ok := by
  rcases render_path o s buf with ⟨b, hb⟩ | hb | ⟨_, h3, _⟩
  · rw [hb]
    have hw := afterConnect_writes o (reconnectEntry o s buf) buf
    have hr := reconnectEntry_replay o s buf
    have hfl := (afterConnect_flags o (reconnectEntry o s buf) buf).1
    exact ⟨by rw [hw, hr], hfl⟩
  · rw [hb] at h
    have hx := (connectFailTail_flags (reconnectEntry o s buf) buf).2.2
    simp [hx] at h
  · rw [h3] at h; cases h

/-- Claim C3 witness: a reconnect with all slots captured and failing writes
still replays the full fixed-order sequence and returns OK. -/
theorem claim_C3_witness :
    (render oWriteNeg sAllMeta ⟨100, [7]⟩).writes =
      replayWrites (captureMeta sAllMeta ⟨100, [7]⟩) ∧
    (render oWriteNeg sAllMeta ⟨100, [7]⟩).ret = Flow.ok :=
  claim_C3_amended oWriteNeg sAllMeta ⟨100, [7]⟩ (by decide)

/-- Claim C4 counterexample: a sink with the sticky write-fault flag raised
but still in reconnect mode (`first = TRUE`) and an unexpired retry window
returns `GST_FLOW_OK` — the fault check at line 482 sits after the
`if (sink->first)` block, so the flag does not fail every delivery
"regardless of the other state". -/
theorem claim_C4_counterexample :
    sFaulted.have_write_error = true ∧
    (render oConnOk sFaulted ⟨100, [7]⟩).ret = Flow.ok := by decide

/-- Claim C4 amended: when the sticky flag is raised and the delivery takes
the steady (non-`first`) path, it fails with an error, performs no write and
keeps the flag; the FLUSH_STOP event handler clears the flag; and once clear,
a steady delivery over a live connection whose write does not return 0
succeeds again. -/
theorem claim_C4_amended (o : Oracle) (s : SinkState) (buf : Chunk) :
    (s.first = false → s.have_write_error = true →
      (render o s buf).ret = Flow.error ∧
      (render o s buf).st.have_write_error = true ∧
      (render o s buf).writes = []) ∧
    ((sink_event_flush_stop s).have_write_error = false) ∧
    (s.first = false → s.have_write_error = false → 0 < s.connection_status →
      o.write_result buf.bytes ≠ 0 → (render o s buf).ret = Flow.ok) := by
  refine ⟨?_, rfl, ?_⟩
  · intro hf hw
    rw [render_steady o s buf (by simp [hf])]
    rw [steadyPath_fault o _ buf (by simp [hw])]
    exact ⟨rfl, rfl, rfl⟩
  · intro hf hw hc hr
    rw [render_steady o s buf (by simp [hf])]
    have h := steadyPath_write o (captureMeta s buf) buf (by simp [hw]) (by simp [hc])
    rcases h with ⟨-, -, h3, -, -⟩
    rcases hx : (steadyPath o (captureMeta s buf) buf).ret with _ | _
    · rfl
    · exact absurd (h3.mp hx) hr

/-- Claim C4 witness: a faulted steady sink fails and keeps the flag; the
flush handler clears it; a clean steady sink then delivers successfully. -/
theorem claim_C4_witness :
    ((render oConnOk sSteadyFault ⟨100, [7]⟩).ret = Flow.error ∧
     (render oConnOk sSteadyFault ⟨100, [7]⟩).st.have_write_error = true ∧
     (render oConnOk sSteadyFault ⟨100, [7]⟩).writes = []) ∧
    (sink_event_flush_stop sSteadyFault).have_write_error = false ∧
    (render oWrite7 sSteady ⟨100, [7]⟩).ret = Flow.ok := by
  refine ⟨(claim_C4_amended oConnOk sSteadyFault ⟨100, [7]⟩).1 rfl rfl, ?_, ?_⟩
  · exact (claim_C4_amended oConnOk sSteadyFault ⟨100, [7]⟩).2.1
  · exact (claim_C4_amended oWrite7 sSteady ⟨100, [7]⟩).2.2 rfl rfl (by decide) (by decide)

/-- Claim C5 counterexample: in the errored connection state
(`connection_status = -1`) a video-tagged chunk is still captured into the
video slot — `if (sink->connection_status)` is true for -1 as well, so
capture is not restricted to the Connected state. -/
theorem claim_C5_counterexample :
    sErrConn.connection_status = -1 ∧ sErrConn.video_meta_saved = false ∧
    (render oConnOk sErrConn ⟨100, [9, 5]⟩).st.video_meta_saved = true ∧
    (render oConnOk sErrConn ⟨100, [9, 5]⟩).st.video_metadata = [9, 5] := by decide

/-- Claim C5 amended: a slot captures exactly when `connection_status` is
non-zero — Connected or Error, the Idle state (0) never captures — the
chunk's leading byte carries the slot's tag, and the slot is not yet
captured; a fresh capture stores the chunk's bytes. -/
theorem claim_C5_amended (o : Oracle) (s : SinkState) (buf : Chunk) :
    ((render o s buf).st.stream_meta_saved =
      (s.stream_meta_saved ||
        (decide (s.connection_status ≠ 0) && decide (buf.bytes.head? = some 18)))) ∧
    ((render o s buf).st.video_meta_saved =
      (s.video_meta_saved ||
        (decide (s.connection_status ≠ 0) && decide (buf.bytes.head? = some 9)))) ∧
    ((render o s buf).st.audio_meta_saved =
      (s.audio_meta_saved ||
        (decide (s.connection_status ≠ 0) && decide (buf.bytes.head? = some 8)))) ∧
    (s.stream_meta_saved = false → (render o s buf).st.stream_meta_saved = true →
      (render o s buf).st.stream_metadata = buf.bytes) ∧
    (s.video_meta_saved = false → (render o s buf).st.video_meta_saved = true →
      (render o s buf).st.video_metadata = buf.bytes) ∧
    (s.audio_meta_saved = false → (render o s buf).st.audio_meta_saved = true →
      (render o s buf).st.audio_metadata = buf.bytes) := by
  obtain ⟨m1, m2, m3, m4, m5, m6⟩ := render_meta o s buf
  obtain ⟨c1, c2, c3, c4, c5, c6⟩ := captureMeta_spec s buf
  refine ⟨m1.trans c1, m2.trans c2, m3.trans c3, ?_, ?_, ?_⟩
  · intro h1 h2; rw [m4]; exact c4 h1 (by rw [← m1]; exact h2)
  · intro h1 h2; rw [m5]; exact c5 h1 (by rw [← m2]; exact h2)
  · intro h1 h2; rw [m6]; exact c6 h1 (by rw [← m3]; exact h2)

/-- Claim C5 witness: the errored-state capture stores the delivered video
bytes. -/
theorem claim_C5_witness :
    (render oConnOk sErrConn ⟨100, [9, 5]⟩).st.video_metadata = [9, 5] :=
  (claim_C5_amended oConnOk sErrConn ⟨100, [9, 5]⟩).2.2.2.2.1 rfl (by decide)

/-- Claim C6 counterexample: a successful steady write (result 7) does not
reset `send_error_count`: it stays 1, contradicting "resets to 0 ... when a
successful write occurs". -/
theorem claim_C6_counterexample :
    sCount1.send_error_count = 1 ∧
    oWrite7.write_result [7, 7] = 7 ∧
    (render oWrite7 sCount1 ⟨100, [7, 7]⟩).writes = [[7, 7]] ∧
    (render oWrite7 sCount1 ⟨100, [7, 7]⟩).st.send_error_count = 1 := by
  exact ⟨rfl, rfl, by decide, by decide⟩

/-- Claim C6 amended: the bandwidth event fires exactly at successful
reconnects where no disconnect notification is pending, the last send status
is -1, and `send_error_count` has reached 2; the counter resets to 0 when the
event fires and also on every failed connect attempt, while a steady write
whose result is not -1 leaves the counter unchanged. -/
theorem claim_C6_amended (o : Oracle) (s : SinkState) (buf : Chunk) :
    ((∃ t, Ev.bandwidth t ∈ (render o s buf).events) ↔
      ((render o s buf).reconnect_done = true ∧ s.disconnection_notified ≠ 0 ∧
       s.sent_status = -1 ∧ 2 ≤ s.send_error_count)) ∧
    ((∃ t, Ev.bandwidth t ∈ (render o s buf).events) →
      (render o s buf).st.send_error_count = 0) ∧
    ((render o s buf).connect_failed = true →
      (render o s buf).st.send_error_count = 0) ∧
    (s.first = false → s.have_write_error = false → 0 < s.connection_status →
      o.write_result buf.bytes ≠ -1 →
      (render o s buf).st.send_error_count = s.send_error_count) := by
  refine ⟨?_, ?_, ?_, ?_⟩
  · rcases render_path o s buf with ⟨b, hb⟩ | hb | ⟨h1, h2, _⟩
    · have hev := afterConnect_events o (reconnectEntry o s buf) buf
      have hfl := (afterConnect_flags o (reconnectEntry o s buf) buf).2.2.2
      rw [hb]
      simp only [RenderOut.events, RenderOut.reconnect_done] at *
      rw [hev]
      simp only [reconnectEntry_notified, reconnectEntry_sent, reconnectEntry_errcount]
      by_cases hn : s.disconnection_notified = 0
      · simp [hn, hfl]
      · by_cases hbw : s.sent_status = -1 ∧ 2 ≤ s.send_error_count <;> simp_all [hn, hbw, hfl]
    · have hev := connectFailTail_events (reconnectEntry o s buf) buf
      have hfl := (connectFailTail_flags (reconnectEntry o s buf) buf).2.2
      rw [hb]
      rw [hev, hfl]
      split_ifs <;> simp
    · rw [h1, h2]; simp
  · intro h
    rcases render_path o s buf with ⟨b, hb⟩ | hb | ⟨h1, _, _⟩
    · have hev := afterConnect_events o (reconnectEntry o s buf) buf
      have hec := afterConnect_errcount o (reconnectEntry o s buf) buf
      rw [hb] at h ⊢
      simp only [RenderOut.events, RenderOut.st] at *
      rw [hev] at h
      rw [hec]
      simp only [reconnectEntry_notified, reconnectEntry_sent, reconnectEntry_errcount] at *
      split_ifs at h ⊢ <;> simp_all
    · have hev := connectFailTail_events (reconnectEntry o s buf) buf
      rw [hb] at h ⊢
      rw [hev] at h
      exact (connectFailTail_st (reconnectEntry o s buf) buf).1
    · rw [h1] at h; simp at h
  · intro h
    rcases render_path o s buf with ⟨b, hb⟩ | hb | ⟨_, _, h3⟩
    · rw [hb] at h
      have hx := (afterConnect_flags o (reconnectEntry o s buf) buf).2.2.1
      simp [hx] at h
    · rw [hb]
      exact (connectFailTail_st (reconnectEntry o s buf) buf).1
    · rw [h3] at h; cases h
  · intro hf hw hc hr
    rw [render_steady o s buf (by simp [hf])]
    have h := steadyPath_write o (captureMeta s buf) buf (by simp [hw]) (by simp [hc])
    rw [h.2.2.2.1 (by simpa using hr)]
    simp

/-- Claim C6 witness: two accumulated send errors plus a pending -1 status
make the next successful reconnect emit the bandwidth event and zero the
counter, while a successful steady write leaves a counter of 1 unchanged. -/
theorem claim_C6_witness :
    (∃ t, Ev.bandwidth t ∈ (render oConnOk sTwoErrs ⟨100, [7]⟩).events) ∧
    (render oConnOk sTwoErrs ⟨100, [7]⟩).st.send_error_count = 0 ∧
    (render oWrite7 sCount1 ⟨100, [7, 7]⟩).st.send_error_count = sCount1.send_error_count := by
  have h := claim_C6_amended oConnOk sTwoErrs ⟨100, [7]⟩
  have hb := h.1.mpr ⟨by decide, by decide, by decide, by decide⟩
  refine ⟨hb, h.2.1 hb, ?_⟩
  exact (claim_C6_amended oWrite7 sCount1 ⟨100, [7, 7]⟩).2.2.2 rfl rfl (by decide) (by decide)

/-- Claim C7: the disconnected event fires exactly once per disconnect
episode: at a failed connect attempt under a positive delay it is posted iff
no prior notification is pending (`disconnection_notified = 1`), after which
the pending flag blocks further posts until a successful reconnect restores
it; ineligible deliveries (chunks dropped while the retry window is closed)
post nothing, write nothing and return OK. -/
theorem claim_C7_disconnected_once_per_episode (o : Oracle) (s : SinkState) (buf : Chunk) :
    ((render o s buf).connect_failed = true → s.reconnection_delay ≠ 0 →
      (((render o s buf).events = [Ev.disconnected buf.timestamp] ↔
          s.disconnection_notified = 1) ∧
       ((render o s buf).events = [] ↔ s.disconnection_notified ≠ 1) ∧
       (s.disconnection_notified = 1 → (render o s buf).st.disconnection_notified = 0) ∧
       (s.disconnection_notified ≠ 1 →
         (render o s buf).st.disconnection_notified = s.disconnection_notified))) ∧
    (s.first = true → eligible (stampEnd (captureMeta s buf) buf) = false →
      (render o s buf).events = [] ∧ (render o s buf).ret = Flow.ok ∧
      (render o s buf).writes = []) ∧
    ((render o s buf).reconnect_done = true → s.disconnection_notified = 0 →
      (render o s buf).st.disconnection_notified = 1) := by
  refine ⟨?_, ?_, ?_⟩
  · intro h hd
    rcases render_path o s buf with ⟨b, hb⟩ | hb | ⟨_, _, h3⟩
    · rw [hb] at h
      have hx := (afterConnect_flags o (reconnectEntry o s buf) buf).2.2.1
      simp [hx] at h
    · rw [hb]
      rw [connectFailTail_events]
      have hst := (connectFailTail_st (reconnectEntry o s buf) buf).2.2.2
      rw [hst]
      simp only [reconnectEntry_delay, reconnectEntry_notified]
      rw [if_neg (by simp [hd])]
      by_cases hn : s.disconnection_notified = 1 <;> simp [hn, hd]
    · rw [h3] at h; cases h
  · intro hf he
    rw [render_dropped o s buf hf he]
    exact ⟨rfl, rfl, rfl⟩
  · intro h hn
    rcases render_path o s buf with ⟨b, hb⟩ | hb | ⟨_, h3, _⟩
    · rw [hb]
      have hx := afterConnect_notified o (reconnectEntry o s buf) buf
      simp only [RenderOut.st] at *
      simp [hx, reconnectEntry_notified, hn]
    · rw [hb] at h
      have hx := (connectFailTail_flags (reconnectEntry o s buf) buf).2.2
      simp [hx] at h
    · rw [h3] at h; cases h

/-- Claim C7 witness: the first failed attempt posts disconnected once; a
closed retry window posts nothing; a successful reconnect with a pending
notification restores the gate. -/
theorem claim_C7_witness :
    (render oConnFail sReady ⟨100, [9, 1]⟩).events = [Ev.disconnected 100] ∧
    (render oConnOk sWaiting ⟨3, [7]⟩).events = [] ∧
    (render oConnOk sNotified ⟨100, [7]⟩).st.disconnection_notified = 1 := by
  refine ⟨?_, ?_, ?_⟩
  · exact ((claim_C7_disconnected_once_per_episode oConnFail sReady ⟨100, [9, 1]⟩).1
      (by decide) (by decide)).1.mpr (by decide)
  · exact ((claim_C7_disconnected_once_per_episode oConnOk sWaiting ⟨3, [7]⟩).2.1
      rfl (by decide)).1
  · exact (claim_C7_disconnected_once_per_episode oConnOk sNotified ⟨100, [7]⟩).2.2
      (by decide) rfl

/-- Claim C8 counterexample: a stop/start cycle clears the PendingHeader but
leaves all three metadata capture flags and their payloads intact — the
slots are not cleared "on every stop/start cycle". -/
theorem claim_C8_counterexample :
    (sink_stop sMetaFull).header = none ∧
    (sink_start oConnOk (sink_stop sMetaFull)).1 = true ∧
    (sink_start oConnOk (sink_stop sMetaFull)).2.stream_meta_saved = true ∧
    (sink_start oConnOk (sink_stop sMetaFull)).2.video_meta_saved = true ∧
    (sink_start oConnOk (sink_stop sMetaFull)).2.audio_meta_saved = true ∧
    (sink_start oConnOk (sink_stop sMetaFull)).2.stream_metadata = [18, 1] := by decide

/-- Claim C8 amended: `stop` clears the PendingHeader and releases the
transport context and URI string, but a stop/start cycle preserves all six
metadata-slot fields (they are only initialized at element creation, which is
what lets mid-stream reconnects replay them). -/
theorem claim_C8_amended (o : Oracle) (s : SinkState) :
    (sink_stop s).header = none ∧ (sink_stop s).rtmp = false ∧
    (sink_stop s).rtmp_uri = false ∧
    (sink_start o (sink_stop s)).2.stream_meta_saved = s.stream_meta_saved ∧
    (sink_start o (sink_stop s)).2.video_meta_saved = s.video_meta_saved ∧
    (sink_start o (sink_stop s)).2.audio_meta_saved = s.audio_meta_saved ∧
    (sink_start o (sink_stop s)).2.stream_metadata = s.stream_metadata ∧
    (sink_start o (sink_stop s)).2.video_metadata = s.video_metadata ∧
    (sink_start o (sink_stop s)).2.audio_metadata = s.audio_metadata ∧
    sinkInit.stream_meta_saved = false ∧ sinkInit.video_meta_saved = false ∧
    sinkInit.audio_meta_saved = false ∧ sinkInit.header = none := by
  refine ⟨rfl, rfl, rfl, ?_, ?_, ?_, ?_, ?_, ?_, rfl, rfl, rfl, rfl⟩ <;>
    (simp only [sink_start, sink_stop]; split_ifs <;> rfl)

/-- Claim C9 counterexample: a reconnect attempt made eligible only by
`try_now_connection` (the elapsed-time condition is false) that succeeds
leaves the flag still set — it is not cleared "regardless of outcome". -/
theorem claim_C9_counterexample :
    sReady.try_now_connection = true ∧
    eligible (stampEnd (captureMeta sReady ⟨100, [7]⟩) ⟨100, [7]⟩) = true ∧
    ¬(sReady.reconnection_delay <
        sub64 (stampEnd (captureMeta sReady ⟨100, [7]⟩) ⟨100, [7]⟩).end_time_disc
          (stampEnd (captureMeta sReady ⟨100, [7]⟩) ⟨100, [7]⟩).begin_time_disc) ∧
    (render oConnOk sReady ⟨100, [7]⟩).reconnect_done = true ∧
    (render oConnOk sReady ⟨100, [7]⟩).st.try_now_connection = true := by decide

/-- Claim C9 amended: `try_now_connection` is cleared by a failed connect
attempt (line 414), but a delivery that completes a successful reconnect
leaves the flag exactly as it was. -/
theorem claim_C9_amended (o : Oracle) (s : SinkState) (buf : Chunk) :
    ((render o s buf).connect_failed = true →
      (render o s buf).st.try_now_connection = false) ∧
    ((render o s buf).reconnect_done = true →
      (render o s buf).st.try_now_connection = s.try_now_connection) := by
  constructor
  · intro h
    rcases render_path o s buf with ⟨b, hb⟩ | hb | ⟨_, _, h3⟩
    · rw [hb] at h
      have hx := (afterConnect_flags o (reconnectEntry o s buf) buf).2.2.1
      simp [hx] at h
    · rw [hb]
      exact (connectFailTail_st (reconnectEntry o s buf) buf).2.1
    · rw [h3] at h; cases h
  · intro h
    rcases render_path o s buf with ⟨b, hb⟩ | hb | ⟨_, h3, _⟩
    · rw [hb]
      have hx := afterConnect_trynow o (reconnectEntry o s buf) buf
      simp only [RenderOut.st] at *
      rw [hx, reconnectEntry_trynow]
    · rw [hb] at h
      have hx := (connectFailTail_flags (reconnectEntry o s buf) buf).2.2
      simp [hx] at h
    · rw [h3] at h; cases h

/-- Claim C9 witness: a failed attempt clears the flag; a successful attempt
preserves it. -/
theorem claim_C9_witness :
    (render oConnFail sReady ⟨100, [7]⟩).st.try_now_connection = false ∧
    (render oConnOk sReady ⟨100, [7]⟩).st.try_now_connection = sReady.try_now_connection := by
  exact ⟨(claim_C9_amended oConnFail sReady ⟨100, [7]⟩).1 (by decide),
    (claim_C9_amended oConnOk sReady ⟨100, [7]⟩).2 (by decide)⟩

/-- Claim C10: on any single delivery at most one of the reconnected and
bandwidth events is posted, never both; reconnected is posted only on a
successful reconnect when a disconnect notification is pending
(`disconnection_notified = 0`), and bandwidth only on a successful reconnect
when none is pending. -/
theorem claim_C10_events_mutually_exclusive (o : Oracle) (s : SinkState) (buf : Chunk) :
    (¬((∃ t, Ev.reconnected t ∈ (render o s buf).events) ∧
       (∃ t, Ev.bandwidth t ∈ (render o s buf).events))) ∧
    ((∃ t, Ev.reconnected t ∈ (render o s buf).events) →
      (render o s buf).reconnect_done = true ∧ s.disconnection_notified = 0) ∧
    ((∃ t, Ev.bandwidth t ∈ (render o s buf).events) →
      (render o s buf).reconnect_done = true ∧ s.disconnection_notified ≠ 0) := by
  rcases render_path o s buf with ⟨b, hb⟩ | hb | ⟨h1, h2, _⟩
  · have hev := afterConnect_events o (reconnectEntry o s buf) buf
    have hfl := (afterConnect_flags o (reconnectEntry o s buf) buf).2.2.2
    rw [hb]
    simp only [RenderOut.events, RenderOut.reconnect_done] at *
    rw [hev]
    simp only [reconnectEntry_notified, reconnectEntry_sent, reconnectEntry_errcount]
    by_cases hn : s.disconnection_notified = 0
    · simp [hn, hfl]
    · by_cases hbw : s.sent_status = -1 ∧ 2 ≤ s.send_error_count <;> simp [hn, hbw, hfl]
  · have hev := connectFailTail_events (reconnectEntry o s buf) buf
    rw [hb]
    rw [hev]
    split_ifs <;> simp
  · rw [h1]
    simp

/-- Claim C10 witness: a pending-notification reconnect posts reconnected, a
clean reconnect with accumulated send errors posts bandwidth, and the two
never co-occur. -/
theorem claim_C10_witness :
    ((render oConnOk sNotified ⟨100, [7]⟩).reconnect_done = true ∧
     sNotified.disconnection_notified = 0) ∧
    ((render oConnOk sTwoErrs ⟨100, [7]⟩).reconnect_done = true ∧
     sTwoErrs.disconnection_notified ≠ 0) ∧
    ¬((∃ t, Ev.reconnected t ∈ (render oConnOk sNotified ⟨100, [7]⟩).events) ∧
      (∃ t, Ev.bandwidth t ∈ (render oConnOk sNotified ⟨100, [7]⟩).events)) := by
  refine ⟨?_, ?_, ?_⟩
  · exact (claim_C10_events_mutually_exclusive oConnOk sNotified ⟨100, [7]⟩).2.1
      ⟨0, by decide⟩
  · exact (claim_C10_events_mutually_exclusive oConnOk sTwoErrs ⟨100, [7]⟩).2.2
      ⟨100, by decide⟩
  · exact (claim_C10_events_mutually_exclusive oConnOk sNotified ⟨100, [7]⟩).1

end RtmpSink
